import Mathlib

/-!
Shallow embedding of the waybar-system-health repository (Python) in Lean 4.

Conventions of the embedding:
* Python text is modelled as `String` (a wrapper around `List Char`); the
  Python string helpers `strip`, `splitlines`, `lower` and substring search
  are re-implemented below on character lists (`pyStrip`, `pySplitlines`,
  `pyLower`, `strContains`).
* Exit codes of external commands are modelled as `Int`, since the process
  wrapper can report negative return codes (killed by signal); Python's
  bitwise `&` on these codes is `Int.land` (two's-complement semantics).
* Python exceptions are modelled with `Option`/`Except`: an operation that
  can raise returns `none`/`.error`; `Status.worst` over an empty list
  (Python `max([])`, a `ValueError`) is `none`.
* A compiled regular expression held by `IgnoreRules` is modelled by its
  language, a decidable set of character strings `List Char → Bool`;
  Python's unanchored `re.search` is `searchAny`, which looks for any
  contiguous substring in the language.
* Python float arithmetic on percentages is embedded as exact rational
  (`ℚ`) arithmetic; the `.1f` format is embedded as exact decimal rounding
  (`fmt1`).
-/

/-- Python `str.strip` on a character list: drop whitespace at both ends. -/
def stripList (cs : List Char) : List Char :=
  ((cs.dropWhile Char.isWhitespace).reverse.dropWhile Char.isWhitespace).reverse

/-- Python `str.strip` on strings. -/
def pyStrip (s : String) : String :=
  ⟨stripList s.data⟩

/-- Split a character list on newline characters; every list maps to at
least one group (the empty list maps to `[[]]`). -/
def splitOnNl : List Char → List (List Char)
  | [] => [[]]
  | c :: rest =>
    if c = '\n' then [] :: splitOnNl rest
    else
      match splitOnNl rest with
      | [] => [[c]]
      | p :: ps => (c :: p) :: ps

/-- Python `str.splitlines` (for `\n`-separated text): the empty string
yields no lines, and a trailing newline does not yield a trailing empty
line. -/
def pySplitlines (s : String) : List String :=
  match s.data with
  | [] => []
  | c :: rest =>
    let ps := splitOnNl (c :: rest)
    (if ps.getLast? = some [] then ps.dropLast else ps).map (fun l => ⟨l⟩)

/-- Python `str.lower` (ASCII case folding suffices for the repository's
keyword tables). -/
def pyLower (s : String) : String :=
  ⟨s.data.map Char.toLower⟩

/-- Boolean test that a list starts with the given needle. -/
def leadsList : List Char → List Char → Bool
  | [], _ => true
  | _ :: _, [] => false
  | a :: as, b :: bs => a = b && leadsList as bs

/-- Boolean test that the needle (first argument) occurs contiguously
anywhere inside the haystack (second argument); Python `needle in hay`. -/
def containsList (nd : List Char) : List Char → Bool
  | [] => leadsList nd []
  | c :: rest => leadsList nd (c :: rest) || containsList nd rest

/-- Python substring test `needle in hay` on strings. -/
def strContains (hay nd : String) : Bool :=
  containsList nd.data hay.data

/-- A compiled regular expression is embedded by its language: a decidable
set of character strings. -/
def RePattern : Type := List Char → Bool

/-- Python `re.search(pat, text)`: an unanchored search that succeeds iff
some contiguous substring of `text` is in the pattern's language. -/
def searchAny (p : RePattern) (cs : List Char) : Bool :=
  cs.tails.any fun t => t.inits.any fun pre => p pre

/-- Digits-to-number conversion used for Python `int` on a `\d+` match. -/
def digitsToNat (ds : List Char) : Nat :=
  ds.foldl (fun n c => n * 10 + (c.toNat - '0'.toNat)) 0

/-- Severity levels, from `Status` in `modules/base.py`. -/
inductive Status
  | OK
  | WARN
  | CRITICAL
deriving DecidableEq, Repr

/-- The ordinal table `order = {OK: 0, WARN: 1, CRITICAL: 2}` used by
`Status.worst` in `modules/base.py`. -/
def statusOrder : Status → Nat
  | .OK => 0
  | .WARN => 1
  | .CRITICAL => 2

/-- One step of Python `max(..., key=...)`: keep the current maximum unless
the new element's key is strictly greater (so the first maximum wins). -/
def worstStep (acc x : Status) : Status :=
  if statusOrder x > statusOrder acc then x else acc

/-- `Status.worst` from `modules/base.py`: Python
`max(statuses, key=lambda s: order.get(s, 0))`.  `max` over an empty list
raises `ValueError`, modelled as `none`. -/
def Status.worst (statuses : List Status) : Option Status :=
  match statuses with
  | [] => none
  | s :: rest => some (rest.foldl worstStep s)

/-- `HealthCheckResult` from `modules/base.py`. -/
structure HealthCheckResult where
  status : Status
  tooltipLines : List String
deriving DecidableEq, Repr

/-- One iteration of the line-accumulating loop of
`HealthCheckResult.merge`: a blank separator when the accumulator is
already non-empty, then a `"<name>:"` header, then the entry's lines. -/
def mergeStep (acc : List String) (nr : String × HealthCheckResult) : List String :=
  (if acc ≠ [] then acc ++ [""] else acc) ++ ((nr.1 ++ ":") :: nr.2.tooltipLines)

/-- The line-accumulating loop of `HealthCheckResult.merge`. -/
def mergeLines (results : List (String × HealthCheckResult)) : List String :=
  results.foldl mergeStep []

/-- `HealthCheckResult.merge` from `modules/base.py`; the ordered mapping is
modelled as an association list in iteration order.  On an empty mapping
`Status.worst` raises, modelled as `none`. -/
def HealthCheckResult.merge (results : List (String × HealthCheckResult)) :
    Option HealthCheckResult :=
  match Status.worst (results.map fun r => r.2.status) with
  | none => none
  | some st => some ⟨st, mergeLines results⟩

/-- `HealthCheckModule.is_ignored` from `modules/base.py`:
`any(r.search(text) for r in self.ignore_rules.patterns)`. -/
def is_ignored (rules : List RePattern) (text : String) : Bool :=
  rules.any fun r => searchAny r text.data

/-- `format_command_error` from `modules/utils.py`. -/
def format_command_error (cmd_name : String) (code : Int) (stdout stderr : String) :
    List String :=
  (cmd_name ++ " failed with code " ++ toString code) ::
    ((if pyStrip stderr ≠ "" then
        "stderr:" :: (pySplitlines (pyStrip stderr)).map (fun ln => "  " ++ ln)
      else []) ++
     (if pyStrip stdout ≠ "" then
        "stdout:" :: (pySplitlines (pyStrip stdout)).map (fun ln => "  " ++ ln)
      else []))

/-- `JournalModule.check` from `modules/journal.py`, parameterised by the
outcome `(code, out, err)` of the `journalctl` invocation.  The indexing
`splitlines()[0]` is modelled via `List.head?`; a `none` result models a
raised `IndexError`. -/
def journal_check (rules : List RePattern) (code : Int) (out err : String) :
    Option HealthCheckResult :=
  if code = 127 then some ⟨.WARN, ["journalctl missing"]⟩
  else if code ≠ 0 ∧ pyStrip out = "" then
    match (pySplitlines (if pyStrip err ≠ "" then pyStrip err
                         else "cannot read journal")).head? with
    | none => none
    | some note =>
      some ⟨.WARN,
        ["Journal errors (err..emerg): (not readable)", "  " ++ note, "",
         "Tip: add user to systemd-journal group, then re-login."]⟩
  else
    let lines_all := (pySplitlines out).filter fun ln => pyStrip ln ≠ ""
    let lines_filtered := lines_all.filter fun ln => ¬ is_ignored rules ln
    let count := lines_filtered.length
    let recent := lines_filtered.drop (count - 15)
    if count = 0 then some ⟨.OK, ["No errors found in journal"]⟩
    else
      some ⟨.CRITICAL,
        ("Journal errors (err..emerg): " ++ toString count) ::
          (if recent ≠ [] then
            ("" :: "Most recent:" :: recent.map (fun ln => "  " ++ ln)) ++
              (if count > recent.length then
                ["  … (+" ++ toString (count - recent.length) ++ " more)"]
               else [])
           else [])⟩

/-- `MountThreshold` from `modules/disk.py` (percentages as exact
rationals). -/
structure MountThreshold where
  path : String
  warn_percent : ℚ
  critical_percent : ℚ
deriving DecidableEq, Repr

/-- `MountThreshold.__post_init__` from `modules/disk.py` as a fallible
constructor: each `raise ValueError` becomes `.error`, in source order. -/
def mkMountThreshold (path : String) (warn crit : ℚ) :
    Except String MountThreshold :=
  if path = "" then .error "mountpoint path must be set"
  else if ¬ (0 ≤ warn ∧ warn ≤ 100) then
    .error (path ++ ": warn threshold must be between 0 and 100")
  else if ¬ (0 ≤ crit ∧ crit ≤ 100) then
    .error (path ++ ": critical threshold must be between 0 and 100")
  else if warn > crit then
    .error (path ++ ": warn threshold cannot exceed critical threshold")
  else .ok ⟨path, warn, crit⟩

/-- The per-mount verdict of `DiskModule.check` (disk.py lines 129-134):
thresholds are inclusive lower bounds, checked critical-first. -/
def mount_verdict (cfg : MountThreshold) (used_percent : ℚ) : Status :=
  if used_percent ≥ cfg.critical_percent then .CRITICAL
  else if used_percent ≥ cfg.warn_percent then .WARN
  else .OK

/-- Outcome of `shutil.disk_usage` for one path: the exceptions caught by
`DiskModule.check` or the usage numbers. -/
inductive UsageResult
  | notFound
  | permDenied
  | osError (msg : String)
  | ok (total free : Int)
deriving DecidableEq, Repr

/-- Status marker used by the disk and SMART modules. -/
def statusMarker : Status → String
  | .OK => "✓"
  | .WARN => "!"
  | .CRITICAL => "✗"

/-- Decimal digits of a non-negative integer scaled by ten, as used by
`fmt1`. -/
def fmt1nn (n : Int) : String :=
  toString (n / 10) ++ "." ++ toString (n % 10)

/-- Python's `f"{x:.1f}"` formatting, embedded as exact rounding of a
rational to one decimal place. -/
def fmt1 (q : ℚ) : String :=
  let n : Int := round (q * 10)
  if n < 0 then "-" ++ fmt1nn (-n) else fmt1nn n

/-- One iteration of the mount loop in `DiskModule.check` (disk.py lines
105-148): the `(status, detail line)` pair appended for a configured
mountpoint. -/
def mount_entry (usage : String → UsageResult) (cfg : MountThreshold) :
    Status × String :=
  match usage cfg.path with
  | .notFound => (.WARN, cfg.path ++ ": not found (warn)")
  | .permDenied => (.WARN, cfg.path ++ ": permission denied")
  | .osError msg => (.WARN, cfg.path ++ ": error reading usage (" ++ msg ++ ")")
  | .ok total free =>
    if total ≤ 0 then (.WARN, cfg.path ++ ": unable to determine size")
    else
      let used_percent : ℚ := ((total : ℚ) - (free : ℚ)) / (total : ℚ) * 100
      let st := mount_verdict cfg used_percent
      let free_gib : ℚ := (free : ℚ) / (1024 ^ 3 : ℚ)
      let total_gib : ℚ := (total : ℚ) / (1024 ^ 3 : ℚ)
      (st,
        "[" ++ statusMarker st ++ "] " ++ cfg.path ++ ": " ++ fmt1 used_percent ++
          "% used (" ++ fmt1 free_gib ++ "/" ++ fmt1 total_gib ++ " GiB free) " ++
          "(warn " ++ fmt1 cfg.warn_percent ++ "%, crit " ++
          fmt1 cfg.critical_percent ++ "%)")

/-- `DiskModule.check` from `modules/disk.py`, parameterised by the
`shutil.disk_usage` outcome per path.  `config_error` keeps Python string
truthiness: `some ""` is falsy.  A `none` result models a raised
exception. -/
def disk_check (mount_thresholds : List MountThreshold)
    (config_error : Option String) (usage : String → UsageResult) :
    Option HealthCheckResult :=
  if config_error.getD "" ≠ "" then
    some ⟨.WARN,
      ["Disk usage: invalid configuration", "  " ++ config_error.getD ""]⟩
  else if mount_thresholds = [] then
    some ⟨.WARN,
      ["Disk usage: no mountpoints configured",
       "Configure mounts in disk.json (see README)"]⟩
  else
    let entries := mount_thresholds.map (mount_entry usage)
    match Status.worst (entries.map fun e => e.1) with
    | none => none
    | some st => some ⟨st, entries.map fun e => e.2⟩

/-- `SMARTCTL_EXIT_BITS` from `modules/smart.py`: the fixed table of 8 exit
bits, each with its severity and message. -/
def SMARTCTL_EXIT_BITS : List (Int × Status × String) :=
  [(1, .WARN, "smartctl: command line did not parse"),
   (2, .WARN, "smartctl: failed to open device"),
   (4, .WARN, "smartctl: SMART command failed"),
   (8, .CRITICAL, "SMART overall-health self-assessment reported failure"),
   (16, .CRITICAL, "At least one prefailure attribute is below threshold"),
   (32, .CRITICAL, "At least one usage attribute is below threshold"),
   (64, .CRITICAL, "SMART self-test log contains errors"),
   (128, .WARN, "A previous selective self-test is pending completion")]

/-- `SmartModule._decode_exit_bits` from `modules/smart.py`: collect the
`(severity, message)` pair of every table bit set in the exit code. -/
def decode_exit_bits (code : Int) : List (Status × String) :=
  SMARTCTL_EXIT_BITS.foldr
    (fun t acc => if Int.land code t.1 ≠ 0 then (t.2.1, t.2.2) :: acc else acc)
    []

/-- `SmartModule._extract_health_line` from `modules/smart.py`: the first
non-blank line whose lowercase form contains `"smart"` together with
`"health"`, `"overall"` or `"self-assessment"`. -/
def extract_health_line (text : String) : Option String :=
  (pySplitlines text).findSome? fun line =>
    let stripped := pyStrip line
    if stripped = "" then none
    else
      let lower := pyLower stripped
      if strContains lower "smart" ∧
          (strContains lower "health" ∨ strContains lower "overall" ∨
           strContains lower "self-assessment") then
        some stripped
      else none

/-- `SmartModule._status_from_exit_and_health` from `modules/smart.py`.
The Python truthiness test `if health_line:` also rejects `some ""`. -/
def status_from_exit_and_health (exit_messages : List (Status × String))
    (health_line : Option String) : Option Status :=
  let statuses :=
    if exit_messages.map (fun m => m.1) = [] then [Status.OK]
    else exit_messages.map fun m => m.1
  let withHealth :=
    match health_line with
    | none => statuses
    | some h =>
      if h = "" then statuses
      else
        let summary := pyLower h
        if ["fail", "fault", "corrupt"].any (fun k => strContains summary k) then
          statuses ++ [Status.CRITICAL]
        else if ["unknown", "n/a", "not supported"].any
            (fun k => strContains summary k) then
          statuses ++ [Status.WARN]
        else if ["pass", "ok", "good"].any (fun k => strContains summary k) then
          statuses ++ [Status.OK]
        else statuses ++ [Status.WARN]
  Status.worst withHealth

/-- `SmartModule._summarize_health` from `modules/smart.py` (again with
Python truthiness on the optional line). -/
def summarize_health (health_line : Option String) (status : Status) : String :=
  match health_line with
  | some h =>
    if h ≠ "" then h
    else
      match status with
      | .OK => "SMART status OK"
      | .WARN => "SMART status uncertain"
      | .CRITICAL => "SMART reports failure"
  | none =>
    match status with
    | .OK => "SMART status OK"
    | .WARN => "SMART status uncertain"
    | .CRITICAL => "SMART reports failure"

/-- The tail of the per-device detail in `SmartModule._check_device`
(smart.py lines 114-119): a generic command-failure report when
`code != 0 and not exit_messages and (err.strip() or not out.strip())`,
else the raw stderr echoed when the command succeeded but wrote to
stderr, else nothing. -/
def device_tail_lines (code : Int) (out err : String) : List String :=
  if code ≠ 0 ∧ decode_exit_bits code = [] ∧
      (pyStrip err ≠ "" ∨ pyStrip out = "") then
    format_command_error "sudo smartctl -a" code out err
  else if pyStrip err ≠ "" ∧ code = 0 then
    "  stderr:" :: (pySplitlines (pyStrip err)).map (fun ln => "    " ++ ln)
  else []

/-- `SmartModule._check_device` from `modules/smart.py`, parameterised by
the outcome `(code, out, err)` of `sudo smartctl -a <path>`.  A `none`
result models a raised exception. -/
def check_device (path : String) (code : Int) (out err : String) :
    Option (Status × List String) :=
  if code = 127 then
    some (.WARN, [path ++ ": smartctl command not found (unexpected during check)"])
  else
    let exit_messages := decode_exit_bits code
    let health_line :=
      match extract_health_line out with
      | some h => some h
      | none => extract_health_line err
    match status_from_exit_and_health exit_messages health_line with
    | none => none
    | some status =>
      let summary := summarize_health health_line status
      let head := "[" ++ statusMarker status ++ "] " ++ path ++ ": " ++ summary
      let bitLines := exit_messages.map fun m =>
        "  - (" ++
          (match m.1 with
           | .OK => "info"
           | .WARN => "warn"
           | .CRITICAL => "crit") ++ ") " ++ m.2
      some (status, (head :: bitLines) ++ device_tail_lines code out err)

/-- The state classification of `SystemdModule._state_result`
(systemd.py lines 29-34). -/
def classify_state (state : String) (code : Int) : Status :=
  if state ∈ ["degraded", "maintenance", "failed"] then .CRITICAL
  else if state ∈ ["starting", "unknown"] ∨ code > 0 then .WARN
  else .OK

/-- `SystemdModule._state_result` from `modules/systemd.py`, parameterised
by the outcome of `systemctl [--user] is-system-running`.  The indexing
`splitlines()[0]` is modelled via `List.head?`; `none` models a raised
`IndexError`. -/
def state_result (user : Bool) (code : Int) (out err : String) :
    Option HealthCheckResult :=
  if code = 127 then some ⟨.WARN, ["systemctl missing"]⟩
  else
    let raw :=
      if pyStrip out ≠ "" then pyStrip out
      else if pyStrip err ≠ "" then pyStrip err
      else "unknown"
    match (pySplitlines raw).head? with
    | none => none
    | some l =>
      let state := pyStrip l
      some ⟨classify_state state code,
        ["systemd (" ++ (if user then " --user" else "") ++ "): " ++ state]⟩

/-- For one candidate split of a device-stats line after a `"]."`
occurrence, the forced greedy decomposition of the regex tail
`(\S+)\s+(\d+)$`: a maximal non-blank run, a maximal blank run, then
digits to the end, all non-empty.  Returns the counter value. -/
def trySuffix (cs : List Char) : Option Nat :=
  let m := cs.takeWhile fun c => ¬ c.isWhitespace
  let r1 := cs.dropWhile fun c => ¬ c.isWhitespace
  let w := r1.takeWhile Char.isWhitespace
  let d := r1.dropWhile Char.isWhitespace
  if m ≠ [] ∧ w ≠ [] ∧ d ≠ [] ∧ d.all Char.isDigit then some (digitsToNat d)
  else none

/-- All suffixes following an occurrence of `"]."`, left to right. -/
def statCandidates : List Char → List (List Char)
  | [] => []
  | c :: rest =>
    match rest with
    | '.' :: rest2 =>
      if c = ']' then rest2 :: statCandidates rest else statCandidates rest
    | _ => statCandidates rest

/-- Python `re.match(r"^\[.+\]\.(\S+)\s+(\d+)$", ln)` with backtracking
semantics (the greedy `.+` prefers the rightmost viable `"]."`); returns
the integer value of the second group on success.  The `.+` must consume
at least one character, so the character right after `'['` is consumed
unconditionally and the `"]."` scan starts only after it: a `"]."` whose
bracket is that first character (as in `"[].foo 3"`) is no match. -/
def matchStat (cs : List Char) : Option Nat :=
  match cs with
  | '[' :: _ :: body => (statCandidates body).reverse.findSome? trySuffix
  | _ => none

/-- Accumulator of the device-stats line loop in `BtrfsModule.device_stats`
(btrfs.py lines 38-56). -/
structure StatsAcc where
  nonzero : Nat
  interesting : List String
  parseErr : Bool
deriving DecidableEq, Repr

/-- One iteration of the device-stats line loop: strip, skip blank and
ignored lines, then classify by the counter pattern. -/
def stats_step (rules : List RePattern) (acc : StatsAcc) (raw : String) : StatsAcc :=
  let ln := pyStrip raw
  if ln = "" then acc
  else if is_ignored rules ln then acc
  else
    match matchStat ln.data with
    | some v =>
      if v ≠ 0 then
        ⟨acc.nonzero + 1, acc.interesting ++ [ln], acc.parseErr⟩
      else acc
    | none =>
      ⟨acc.nonzero, acc.interesting ++ ["couldn't parse this line: " ++ ln], true⟩

/-- The exit-0 body of `BtrfsModule.device_stats` (btrfs.py lines 38-74),
over the already split output lines. -/
def device_stats_lines (rules : List RePattern) (lines : List String) :
    HealthCheckResult :=
  let acc := lines.foldl (stats_step rules) ⟨0, [], false⟩
  let status : Status :=
    if acc.nonzero > 0 then .CRITICAL
    else if acc.parseErr then .WARN
    else .OK
  let details :=
    ("non-zero counters: " ++ toString acc.nonzero) ::
      ((acc.interesting.take 12).map (fun ln => "  " ++ ln) ++
       (if acc.nonzero = 0 then ["  (none)"] else []))
  ⟨status, details⟩

/-- `BtrfsModule.device_stats` from `modules/btrfs.py`, parameterised by
the outcome of `btrfs device stats /`. -/
def device_stats (rules : List RePattern) (code : Int) (out err : String) :
    HealthCheckResult :=
  if code = 127 then ⟨.WARN, ["btrfs-progs missing"]⟩
  else if code ≠ 0 then
    ⟨.WARN, format_command_error "btrfs device stats" code out err⟩
  else device_stats_lines rules (pySplitlines out)

/-! ## Helper lemmas -/

lemma foldl_worstStep_char (xs : List Status) :
    ∀ x : Status, xs.foldl worstStep x =
      if Status.CRITICAL ∈ x :: xs then .CRITICAL
      else if Status.WARN ∈ x :: xs then .WARN
      else .OK := by
  induction xs with
  | nil => intro x; cases x <;> simp [worstStep]
  | cons s xs ih =>
    intro x
    rw [List.foldl_cons, ih]
    cases x <;> cases s <;>
      simp [worstStep, statusOrder, List.mem_cons]

lemma worst_cons (x : Status) (xs : List Status) :
    Status.worst (x :: xs) =
      some (if Status.CRITICAL ∈ x :: xs then .CRITICAL
            else if Status.WARN ∈ x :: xs then .WARN
            else .OK) := by
  simp [Status.worst, foldl_worstStep_char]

lemma worst_isSome {l : List Status} (h : l ≠ []) : (Status.worst l).isSome := by
  cases l with
  | nil => exact absurd rfl h
  | cons x xs => simp [Status.worst]

lemma foldl_mergeStep_acc (rest : List (String × HealthCheckResult)) :
    ∀ acc : List String, acc ≠ [] →
      rest.foldl mergeStep acc =
        acc ++ (rest.map fun p => "" :: (p.1 ++ ":") :: p.2.tooltipLines).flatten := by
  induction rest with
  | nil => intro acc _; simp
  | cons p rest ih =>
    intro acc hacc
    rw [List.foldl_cons]
    have hstep : mergeStep acc p = acc ++ ("" :: (p.1 ++ ":") :: p.2.tooltipLines) := by
      simp [mergeStep, hacc]
    rw [hstep, ih (acc ++ ("" :: (p.1 ++ ":") :: p.2.tooltipLines)) (by simp)]
    simp

lemma mergeLines_cons (n : String) (r : HealthCheckResult)
    (rest : List (String × HealthCheckResult)) :
    mergeLines ((n, r) :: rest) =
      ((n ++ ":") :: r.tooltipLines) ++
        (rest.map fun p => "" :: (p.1 ++ ":") :: p.2.tooltipLines).flatten := by
  unfold mergeLines
  rw [List.foldl_cons]
  have hstep : mergeStep [] (n, r) = (n ++ ":") :: r.tooltipLines := by
    simp [mergeStep]
  rw [hstep, foldl_mergeStep_acc rest _ (by simp)]

/-! ## Claims -/

/-- C1: for every non-empty list of severities, `Status.worst` returns the
maximum element under the total order `OK < WARN < CRITICAL` (it is a
member of the list and dominates every member in the ordinal order), and
the result is invariant under permutation of the input list. -/
theorem C1_worst_is_order_max (l l' : List Status) (hne : l ≠ [])
    (hperm : l.Perm l') :
    (∃ m, Status.worst l = some m ∧ m ∈ l ∧
      ∀ s ∈ l, statusOrder s ≤ statusOrder m) ∧
    Status.worst l = Status.worst l' := by
  obtain ⟨x, xs, rfl⟩ := List.exists_cons_of_ne_nil hne
  have hne' : l' ≠ [] := by
    intro h
    subst h
    exact hne hperm.eq_nil
  obtain ⟨y, ys, rfl⟩ := List.exists_cons_of_ne_nil hne'
  constructor
  · refine ⟨_, worst_cons x xs, ?_, ?_⟩
    · by_cases hc : Status.CRITICAL ∈ x :: xs
      · simp [hc]
      · by_cases hw : Status.WARN ∈ x :: xs
        · simp [hc, hw]
        · have hx : x = Status.OK := by
            cases x with
            | OK => rfl
            | WARN => exact absurd (List.mem_cons_self _ _) hw
            | CRITICAL => exact absurd (List.mem_cons_self _ _) hc
          subst hx
          simp [hc, hw]
    · intro s hs
      by_cases hc : Status.CRITICAL ∈ x :: xs
      · simp only [hc, if_true]
        cases s <;> simp [statusOrder]
      · by_cases hw : Status.WARN ∈ x :: xs
        · simp only [hc, hw, if_false, if_true]
          cases s with
          | OK => simp [statusOrder]
          | WARN => simp [statusOrder]
          | CRITICAL => exact absurd hs hc
        · cases s with
          | OK => simp [hc, hw, statusOrder]
          | WARN => exact absurd hs hw
          | CRITICAL => exact absurd hs hc
  · rw [worst_cons, worst_cons]
    simp only [hperm.mem_iff]

/-- C1 witness at a concrete non-empty list and one of its permutations. -/
theorem C1_witness :
    (∃ m, Status.worst [Status.OK, Status.CRITICAL, Status.WARN] = some m ∧
      m ∈ [Status.OK, Status.CRITICAL, Status.WARN] ∧
      ∀ s ∈ [Status.OK, Status.CRITICAL, Status.WARN],
        statusOrder s ≤ statusOrder m) ∧
    Status.worst [Status.OK, Status.CRITICAL, Status.WARN] =
      Status.worst [Status.WARN, Status.OK, Status.CRITICAL] :=
  C1_worst_is_order_max _ _ (by decide) (by decide)

/-- C10: on empty input `Status.worst` raises (Python `max` over an empty
sequence raises `ValueError`, modelled as `none`), hence
`HealthCheckResult.merge` of an empty mapping raises too; any non-empty
input makes `Status.worst` succeed, so callers must supply at least one
input. -/
theorem C10_empty_input_raises :
    Status.worst [] = none ∧
    HealthCheckResult.merge [] = none ∧
    ∀ (s : Status) (rest : List Status), (Status.worst (s :: rest)).isSome := by
  refine ⟨rfl, rfl, ?_⟩
  intro s rest
  simp [Status.worst]

/-- C2: merging a non-empty ordered mapping yields the `worst` of the
input severities, and the lines are, per entry in iteration order, a blank
separator (omitted before the first entry), a `"<name>:"` header, and the
entry's lines verbatim; a single-entry mapping yields that entry's lines
under its header with no leading blank. -/
theorem C2_merge_shape (n : String) (r : HealthCheckResult)
    (rest : List (String × HealthCheckResult)) :
    (∃ w, Status.worst (((n, r) :: rest).map fun p => p.2.status) = some w ∧
      HealthCheckResult.merge ((n, r) :: rest) =
        some ⟨w, ((n ++ ":") :: r.tooltipLines) ++
          (rest.map fun p => "" :: (p.1 ++ ":") :: p.2.tooltipLines).flatten⟩) ∧
    HealthCheckResult.merge [(n, r)] =
      some ⟨r.status, (n ++ ":") :: r.tooltipLines⟩ := by
  constructor
  · refine ⟨(rest.map fun p => p.2.status).foldl worstStep r.status, ?_, ?_⟩
    · simp [Status.worst]
    · have h := mergeLines_cons n r rest
      simp [HealthCheckResult.merge, Status.worst, h]
  · rfl

lemma splitOnNl_ne_nil (cs : List Char) : splitOnNl cs ≠ [] := by
  cases cs with
  | nil => simp [splitOnNl]
  | cons c rest =>
    simp only [splitOnNl]
    split
    · simp
    · split <;> simp

lemma splitOnNl_ne_single_nil (c : Char) (rest : List Char) :
    splitOnNl (c :: rest) ≠ [[]] := by
  simp only [splitOnNl]
  split
  · intro h
    rw [List.cons_eq_cons] at h
    exact splitOnNl_ne_nil rest h.2
  · split
    · simp
    · simp

lemma keepNonempty (ps : List (List Char)) (h1 : ps ≠ []) (h2 : ps ≠ [[]]) :
    (if ps.getLast? = some [] then ps.dropLast else ps) ≠ [] := by
  match ps, h1 with
  | [q], _ =>
    split
    · rename_i heq
      simp [List.getLast?] at heq
      subst heq
      exact absurd rfl h2
    · simp
  | q :: q2 :: qs, _ =>
    split
    · simp
    · simp

lemma pySplitlines_ne_nil {s : String} (h : s ≠ "") : pySplitlines s ≠ [] := by
  have hd : s.data ≠ [] := by
    intro hh
    apply h
    apply String.ext
    rw [hh]
  unfold pySplitlines
  cases hcs : s.data with
  | nil => exact absurd hcs hd
  | cons c rest =>
    simp only []
    intro hmap
    rw [List.map_eq_nil_iff] at hmap
    exact keepNonempty _ (splitOnNl_ne_nil _) (splitOnNl_ne_single_nil c rest) hmap

lemma status_from_exit_and_health_isSome (ms : List (Status × String))
    (h : Option String) : (status_from_exit_and_health ms h).isSome := by
  unfold status_from_exit_and_health
  have hs : (if ms.map (fun m => m.1) = [] then [Status.OK]
             else ms.map fun m => m.1) ≠ [] := by
    split
    · simp
    · rename_i hh
      exact hh
  cases h with
  | none => exact worst_isSome hs
  | some hl =>
    dsimp only
    by_cases he : hl = ""
    · rw [if_pos he]
      exact worst_isSome hs
    · rw [if_neg he]
      split_ifs <;> exact worst_isSome (by simp)

lemma journal_check_isSome (rules : List RePattern) (code : Int) (out err : String) :
    (journal_check rules code out err).isSome := by
  unfold journal_check
  split
  · rfl
  · split
    · have harg : (if pyStrip err ≠ "" then pyStrip err else "cannot read journal") ≠ "" := by
        split
        · rename_i hh
          exact hh
        · decide
      obtain ⟨a, as, hcons⟩ := List.exists_cons_of_ne_nil (pySplitlines_ne_nil harg)
      rw [hcons]
      rfl
    · dsimp only
      split <;> rfl

lemma disk_check_isSome (cfgs : List MountThreshold) (ce : Option String)
    (usage : String → UsageResult) : (disk_check cfgs ce usage).isSome := by
  unfold disk_check
  split
  · rfl
  · split
    · rfl
    · rename_i hn
      have hmap : ((cfgs.map (mount_entry usage)).map fun e => e.1) ≠ [] := by
        simp [hn]
      obtain ⟨w, hw⟩ := Option.isSome_iff_exists.mp (worst_isSome hmap)
      dsimp only
      rw [hw]
      rfl

lemma state_result_isSome (user : Bool) (code : Int) (out err : String) :
    (state_result user code out err).isSome := by
  unfold state_result
  split
  · rfl
  · have harg : (if pyStrip out ≠ "" then pyStrip out
                 else if pyStrip err ≠ "" then pyStrip err else "unknown") ≠ "" := by
      split
      · rename_i hh
        exact hh
      · split
        · rename_i hh
          exact hh
        · decide
    obtain ⟨a, as, hcons⟩ := List.exists_cons_of_ne_nil (pySplitlines_ne_nil harg)
    dsimp only
    rw [hcons]
    rfl

lemma check_device_isSome (path : String) (code : Int) (out err : String) :
    (check_device path code out err).isSome := by
  unfold check_device
  split
  · rfl
  · obtain ⟨w, hw⟩ := Option.isSome_iff_exists.mp
      (status_from_exit_and_health_isSome (decode_exit_bits code)
        (match extract_health_line out with
         | some h => some h
         | none => extract_health_line err))
    dsimp only
    rw [hw]
    rfl

/-- C3: for every executor outcome (any exit code, stdout and stderr) the
embedded check operations return a result and never raise (the `Option`
embedding of Python exceptions never produces `none`): the journal check,
the disk check (for every configuration and every usage outcome), the
systemd state sub-check and the SMART per-device check are all total. -/
theorem C3_checks_never_raise :
    (∀ (rules : List RePattern) (code : Int) (out err : String),
      (journal_check rules code out err).isSome) ∧
    (∀ (cfgs : List MountThreshold) (ce : Option String)
        (usage : String → UsageResult),
      (disk_check cfgs ce usage).isSome) ∧
    (∀ (user : Bool) (code : Int) (out err : String),
      (state_result user code out err).isSome) ∧
    (∀ (path : String) (code : Int) (out err : String),
      (check_device path code out err).isSome) :=
  ⟨journal_check_isSome, disk_check_isSome, state_result_isSome, check_device_isSome⟩

lemma foldr_bits_flatten (code : Int) (l : List (Int × Status × String)) :
    l.foldr
        (fun t acc => if Int.land code t.1 ≠ 0 then (t.2.1, t.2.2) :: acc else acc)
        [] =
      (l.map fun t =>
        if Int.land code t.1 ≠ 0 then [(t.2.1, t.2.2)] else []).flatten := by
  induction l with
  | nil => rfl
  | cons t l ih =>
    simp only [List.foldr_cons, List.map_cons, List.flatten_cons, ih]
    split <;> simp

set_option maxRecDepth 4000 in
/-- C4: SMART exit-code decoding is bitwise-independent: for every exit
code the decoded list is the concatenation of one fixed
`(severity, message)` contribution per set bit; the table maps bits
1, 2, 4, 128 to WARN and 8, 16, 32, 64 to CRITICAL; exit code 9 with no
health line yields exactly one WARN and one CRITICAL message and a
per-device verdict of CRITICAL. -/
theorem C4_exit_bits_bitwise_independent :
    (∀ code : Int,
      decode_exit_bits code =
        (if Int.land code 1 ≠ 0 then
          [((Status.WARN : Status), "smartctl: command line did not parse")] else []) ++
        (if Int.land code 2 ≠ 0 then
          [((Status.WARN : Status), "smartctl: failed to open device")] else []) ++
        (if Int.land code 4 ≠ 0 then
          [((Status.WARN : Status), "smartctl: SMART command failed")] else []) ++
        (if Int.land code 8 ≠ 0 then
          [((Status.CRITICAL : Status),
            "SMART overall-health self-assessment reported failure")] else []) ++
        (if Int.land code 16 ≠ 0 then
          [((Status.CRITICAL : Status),
            "At least one prefailure attribute is below threshold")] else []) ++
        (if Int.land code 32 ≠ 0 then
          [((Status.CRITICAL : Status),
            "At least one usage attribute is below threshold")] else []) ++
        (if Int.land code 64 ≠ 0 then
          [((Status.CRITICAL : Status), "SMART self-test log contains errors")] else []) ++
        (if Int.land code 128 ≠ 0 then
          [((Status.WARN : Status),
            "A previous selective self-test is pending completion")] else [])) ∧
    SMARTCTL_EXIT_BITS.map (fun t => (t.1, t.2.1)) =
      [(1, Status.WARN), (2, Status.WARN), (4, Status.WARN), (8, Status.CRITICAL),
       (16, Status.CRITICAL), (32, Status.CRITICAL), (64, Status.CRITICAL),
       (128, Status.WARN)] ∧
    decode_exit_bits 9 =
      [(Status.WARN, "smartctl: command line did not parse"),
       (Status.CRITICAL, "SMART overall-health self-assessment reported failure")] ∧
    status_from_exit_and_health (decode_exit_bits 9) none = some Status.CRITICAL := by
  refine ⟨?_, by decide, by decide, by decide⟩
  intro code
  rw [decode_exit_bits, foldr_bits_flatten]
  simp [SMARTCTL_EXIT_BITS, List.append_assoc]

/-- C5: with a positive total, `used_percent = (total - free) / total * 100`
and the per-mount verdict of `DiskModule.check` uses inclusive lower
bounds checked critical-first: hitting `critical_percent` exactly gives
CRITICAL, hitting `warn_percent` exactly while strictly below
`critical_percent` gives WARN, and strictly below `warn_percent` (with
the `MountThreshold` invariant `warn ≤ critical`) gives OK. -/
theorem C5_disk_thresholds_inclusive (path : String) (warn crit : ℚ)
    (total free : Int) (htot : 0 < total) (hwc : warn ≤ crit) :
    (((total : ℚ) - (free : ℚ)) / (total : ℚ) * 100 = crit →
      mount_verdict ⟨path, warn, crit⟩ (((total : ℚ) - (free : ℚ)) / (total : ℚ) * 100) =
        Status.CRITICAL) ∧
    (((total : ℚ) - (free : ℚ)) / (total : ℚ) * 100 = warn →
      ((total : ℚ) - (free : ℚ)) / (total : ℚ) * 100 < crit →
      mount_verdict ⟨path, warn, crit⟩ (((total : ℚ) - (free : ℚ)) / (total : ℚ) * 100) =
        Status.WARN) ∧
    (((total : ℚ) - (free : ℚ)) / (total : ℚ) * 100 < warn →
      mount_verdict ⟨path, warn, crit⟩ (((total : ℚ) - (free : ℚ)) / (total : ℚ) * 100) =
        Status.OK) := by
  refine ⟨?_, ?_, ?_⟩ <;> intro h1 <;> try intro h2
  · unfold mount_verdict
    rw [if_pos (le_of_eq h1.symm)]
  · unfold mount_verdict
    rw [if_neg (by simpa using h2), if_pos (le_of_eq h1.symm)]
  · unfold mount_verdict
    rw [if_neg (by simp only [not_le]; linarith), if_neg (by simpa using h1)]

/-- C5 witness: total 1000, free 50 gives 95.0% used; with warn 80 and
crit 95 the boundary value equals the critical threshold and the verdict
is CRITICAL. -/
theorem C5_witness :
    mount_verdict ⟨"/", 80, 95⟩ ((((1000 : Int) : ℚ) - ((50 : Int) : ℚ)) / ((1000 : Int) : ℚ) * 100) =
      Status.CRITICAL :=
  (C5_disk_thresholds_inclusive "/" 80 95 1000 50 (by norm_num) (by norm_num)).1
    (by norm_num)

lemma stats_step_skip (rules : List RePattern) (acc : StatsAcc) (raw : String)
    (h : pyStrip raw = "" ∨ is_ignored rules (pyStrip raw) = true ∨
      matchStat (pyStrip raw).data = some 0) :
    stats_step rules acc raw = acc := by
  unfold stats_step
  rcases h with h | h | h
  · rw [if_pos h]
  · by_cases hb : pyStrip raw = ""
    · rw [if_pos hb]
    · rw [if_neg hb, if_pos h]
  · by_cases hb : pyStrip raw = ""
    · rw [if_pos hb]
    · rw [if_neg hb]
      by_cases hi : is_ignored rules (pyStrip raw) = true
      · rw [if_pos hi]
      · rw [if_neg hi]
        simp [h]

lemma foldl_stats_trivial (rules : List RePattern) (lines : List String)
    (h : ∀ M ∈ lines, pyStrip M = "" ∨ is_ignored rules (pyStrip M) = true ∨
      matchStat (pyStrip M).data = some 0) :
    ∀ acc : StatsAcc, lines.foldl (stats_step rules) acc = acc := by
  induction lines with
  | nil => intro acc; rfl
  | cons L lines ih =>
    intro acc
    rw [List.foldl_cons, stats_step_skip rules acc L (h L (List.mem_cons_self _ _))]
    exact ih (fun M hM => h M (List.mem_cons_of_mem _ hM)) acc

/-- C6: a device-stats line that matches the counter pattern with a
nonzero value but also matches an ignore pattern (unanchored search,
modelled by `searchAny` inside `is_ignored`) contributes nothing: the
result is the same as if the line were absent; and if every remaining
line is blank, ignored, or a zero-valued counter line (no parse errors),
the sub-check verdict is OK. -/
theorem C6_ignored_lines_do_not_count (rules : List RePattern)
    (pre post : List String) (L : String) (v : Nat)
    (hmatch : matchStat (pyStrip L).data = some v) (hv : v ≠ 0)
    (hig : is_ignored rules (pyStrip L) = true) :
    device_stats_lines rules (pre ++ L :: post) = device_stats_lines rules (pre ++ post) ∧
    ((∀ M ∈ pre ++ post, pyStrip M = "" ∨ is_ignored rules (pyStrip M) = true ∨
        matchStat (pyStrip M).data = some 0) →
      (device_stats_lines rules (pre ++ L :: post)).status = Status.OK) := by
  have hacc : ∀ acc : StatsAcc,
      (pre ++ L :: post).foldl (stats_step rules) acc =
        (pre ++ post).foldl (stats_step rules) acc := by
    intro acc
    rw [List.foldl_append, List.foldl_cons,
      stats_step_skip rules _ L (Or.inr (Or.inl hig)), ← List.foldl_append]
  constructor
  · unfold device_stats_lines
    rw [hacc]
  · intro hrest
    unfold device_stats_lines
    rw [hacc, foldl_stats_trivial rules (pre ++ post) hrest]
    rfl

/-- C6 witness: with a single ignore pattern whose language is the literal
text `flush`, the line `[/dev/sda].flush_io_errs 7` (counter value 7) is
ignored, so the output consisting of it and a zero-counter line is
equivalent to the zero-counter line alone and the verdict is OK. -/
theorem C6_witness :
    device_stats_lines [fun cs => cs = "flush".data]
        (["[/dev/sda].write_io_errs 0"] ++ "[/dev/sda].flush_io_errs 7" :: []) =
      device_stats_lines [fun cs => cs = "flush".data]
        (["[/dev/sda].write_io_errs 0"] ++ []) ∧
    (device_stats_lines [fun cs => cs = "flush".data]
        (["[/dev/sda].write_io_errs 0"] ++ "[/dev/sda].flush_io_errs 7" :: [])).status =
      Status.OK := by
  have h := C6_ignored_lines_do_not_count [fun cs => cs = "flush".data]
    ["[/dev/sda].write_io_errs 0"] [] "[/dev/sda].flush_io_errs 7" 7
    (by decide) (by decide) (by decide)
  exact ⟨h.1, h.2 (by decide)⟩

/-- C7 counterexample: at exit code 256 with empty stdout and empty stderr
(no meaningful output or error text at all: both streams strip to empty),
no exit bit fires yet the generic command-failure report IS appended —
refuting the claim that the report appears only when there was meaningful
output/error text. -/
theorem C7_counterexample :
    device_tail_lines 256 "" "" = format_command_error "sudo smartctl -a" 256 "" "" ∧
    device_tail_lines 256 "" "" ≠ [] ∧
    pyStrip ("" : String) = "" ∧ decode_exit_bits 256 = [] := by
  refine ⟨?_, ?_, rfl, by decide⟩
  · unfold device_tail_lines
    rw [if_pos]
    exact ⟨by decide, by decide, Or.inr rfl⟩
  · unfold device_tail_lines
    rw [if_pos ⟨by decide, by decide, Or.inr rfl⟩]
    simp [format_command_error]

/-- C7 amended: in the SMART per-device detail the generic command-failure
report is appended exactly when the exit code is nonzero, no exit bit
fired, and stderr is non-blank OR stdout is blank (the code tests
`err.strip() or not out.strip()`, not "meaningful output/error text");
when the command succeeded (exit 0) but stderr is non-blank, the raw
stderr is echoed; in every other case nothing is appended. -/
theorem C7_failure_report_condition (code : Int) (out err : String) :
    ((code ≠ 0 ∧ decode_exit_bits code = [] ∧ (pyStrip err ≠ "" ∨ pyStrip out = "")) →
      device_tail_lines code out err =
        format_command_error "sudo smartctl -a" code out err) ∧
    (code = 0 → pyStrip err ≠ "" →
      device_tail_lines code out err =
        "  stderr:" :: (pySplitlines (pyStrip err)).map fun ln => "    " ++ ln) ∧
    (¬(code ≠ 0 ∧ decode_exit_bits code = [] ∧ (pyStrip err ≠ "" ∨ pyStrip out = "")) →
      ¬(pyStrip err ≠ "" ∧ code = 0) →
      device_tail_lines code out err = []) := by
  refine ⟨?_, ?_, ?_⟩
  · intro hc
    unfold device_tail_lines
    rw [if_pos hc]
  · intro hz he
    unfold device_tail_lines
    rw [if_neg (by simp [hz]), if_pos ⟨he, hz⟩]
  · intro hn1 hn2
    unfold device_tail_lines
    rw [if_neg hn1, if_neg hn2]

/-- C7 witness: exit code 256 with stderr text `boom`: no bit fires and
stderr is non-blank, so the generic command-failure report is appended. -/
theorem C7_witness :
    device_tail_lines 256 "" "boom" =
      format_command_error "sudo smartctl -a" 256 "" "boom" :=
  (C7_failure_report_condition 256 "" "boom").1 ⟨by decide, by decide, Or.inl (by decide)⟩

/-- C8 counterexample: return code `-9` (process killed by a signal, a
nonzero exit code the process wrapper can report) with clean state
`running` is classified OK, not WARN: the code tests `code > 0`, so the
claim "any nonzero exit code with a state outside the critical set yields
WARN" fails at a negative code. -/
theorem C8_counterexample :
    classify_state "running" (-9) = Status.OK ∧
    state_result false (-9) "running" "" =
      some ⟨Status.OK, ["systemd (): running"]⟩ ∧
    "running" ∉ (["degraded", "maintenance", "failed"] : List String) ∧
    (-9 : Int) ≠ 0 := by
  refine ⟨by decide, ?_, by decide, by decide⟩
  rfl

/-- C8 amended: the state classification of `SystemdModule._state_result`
maps a state in {degraded, maintenance, failed} to CRITICAL (taking
precedence over the exit code); a state in {starting, unknown}, or any
POSITIVE exit code with a state outside the critical set, to WARN; and
any other state with a non-positive exit code to OK. -/
theorem C8_state_classification (state : String) (code : Int) (hc : code ≠ 127) :
    (state ∈ (["degraded", "maintenance", "failed"] : List String) →
      classify_state state code = Status.CRITICAL) ∧
    (state ∉ (["degraded", "maintenance", "failed"] : List String) →
      state ∈ (["starting", "unknown"] : List String) →
      classify_state state code = Status.WARN) ∧
    (state ∉ (["degraded", "maintenance", "failed"] : List String) →
      0 < code → classify_state state code = Status.WARN) ∧
    (state ∉ (["degraded", "maintenance", "failed"] : List String) →
      state ∉ (["starting", "unknown"] : List String) →
      code ≤ 0 → classify_state state code = Status.OK) := by
  refine ⟨?_, ?_, ?_, ?_⟩
  · intro h
    unfold classify_state
    rw [if_pos h]
  · intro h1 h2
    unfold classify_state
    rw [if_neg h1, if_pos (Or.inl h2)]
  · intro h1 h3
    unfold classify_state
    rw [if_neg h1, if_pos (Or.inr h3)]
  · intro h1 h2 h3
    unfold classify_state
    rw [if_neg h1, if_neg (fun h => h.elim h2 (fun hgt => absurd hgt (not_lt.mpr h3)))]

/-- C8 witness: state `degraded` with exit code 3 is CRITICAL even though
the exit code is nonzero. -/
theorem C8_witness : classify_state "degraded" 3 = Status.CRITICAL :=
  (C8_state_classification "degraded" 3 (by decide)).1 (by decide)

/-- C9: `MountThreshold` construction fails whenever
`warn_percent > critical_percent`, whenever either percentage lies
outside `[0, 100]`, or whenever the path is empty; it succeeds on all
other inputs, and every constructed value satisfies the invariants
(non-empty path, both percentages in `[0, 100]`, warn ≤ critical). -/
theorem C9_mount_threshold_validation (path : String) (warn crit : ℚ) :
    (warn > crit → ∃ e, mkMountThreshold path warn crit = .error e) ∧
    (¬(0 ≤ warn ∧ warn ≤ 100) ∨ ¬(0 ≤ crit ∧ crit ≤ 100) →
      ∃ e, mkMountThreshold path warn crit = .error e) ∧
    (path = "" → ∃ e, mkMountThreshold path warn crit = .error e) ∧
    (path ≠ "" → 0 ≤ warn → warn ≤ 100 → 0 ≤ crit → crit ≤ 100 → warn ≤ crit →
      mkMountThreshold path warn crit = .ok ⟨path, warn, crit⟩) ∧
    (∀ t, mkMountThreshold path warn crit = .ok t →
      t.path ≠ "" ∧ 0 ≤ t.warn_percent ∧ t.warn_percent ≤ 100 ∧
      0 ≤ t.critical_percent ∧ t.critical_percent ≤ 100 ∧
      t.warn_percent ≤ t.critical_percent) := by
  refine ⟨?_, ?_, ?_, ?_, ?_⟩
  · intro h
    unfold mkMountThreshold
    split_ifs <;> first
      | exact ⟨_, rfl⟩
      | (exfalso; linarith)
  · intro h
    unfold mkMountThreshold
    split_ifs <;> first
      | exact ⟨_, rfl⟩
      | (exfalso
         rcases h with h | h <;> exact h (by constructor <;> linarith))
  · intro h
    unfold mkMountThreshold
    rw [if_pos h]
    exact ⟨_, rfl⟩
  · intro hp hw0 hw1 hc0 hc1 hwc
    unfold mkMountThreshold
    rw [if_neg hp, if_neg (not_not.mpr ⟨hw0, hw1⟩), if_neg (not_not.mpr ⟨hc0, hc1⟩),
      if_neg (not_lt.mpr hwc)]
  · intro t ht
    unfold mkMountThreshold at ht
    split_ifs at ht with h1 h2 h3 h4
    rw [Except.ok.injEq] at ht
    subst ht
    exact ⟨h1, h2.1, h2.2, h3.1, h3.2, not_lt.mp h4⟩

/-- C9 witness: path `/` with warn 80 and critical 90 constructs
successfully. -/
theorem C9_witness : mkMountThreshold "/" 80 90 = .ok ⟨"/", 80, 90⟩ :=
  (C9_mount_threshold_validation "/" 80 90).2.2.2.1 (by decide) (by norm_num)
    (by norm_num) (by norm_num) (by norm_num) (by norm_num)
